import Mathlib

/-!
Verification development for the flow classification and cost-computation
engine of the netcostiq repository (file src/cost_model.py, class
CostCalculatorNRS).

Modelling conventions:
- Python numeric values (floats and ints flowing through the cost
  arithmetic) are modelled as exact rationals.  Python round(x, n) is
  modelled as rounding x * 10^n to the nearest integer and scaling back;
  the Mathlib round function rounds half up while CPython rounds floats
  half to even, and every claim settled here is insensitive to the tie
  direction (concrete evaluations below avoid ties).
- Python str.startswith is modelled on the character lists underlying
  strings.
- A pandas DataFrame of flows is modelled as a list of row records, and
  column assignment as a map over the rows (each added column of
  cost_model.py depends only on columns of the same row that were
  assigned earlier, so the per-row order of assignments is equivalent to
  the per-column order of the source).
- The free-text description field of recommendations (an f-string
  interpolating display percentages) and the report metadata block
  (fixed strings plus a datetime.now() timestamp, which is an external
  effect) are elided; no claim mentions them.
-/

/-- Python str.startswith(p): p is a literal character prefix of s. -/
def startswith (s p : String) : Bool := p.data.isPrefixOf s.data

/-- Python round(x, n) on exact rationals: nearest multiple of 10^(-n). -/
def pyround (x : ℚ) (n : ℕ) : ℚ := ((round (x * 10 ^ n) : ℤ) : ℚ) / 10 ^ n

/-- self.pricing: NRS per GB for each traffic category (cost_model.py lines 16-25). -/
def pricing : List (String × ℚ) :=
  [("CLOUD_EGRESS", 85),
   ("INTERNET_EGRESS", 75),
   ("INTERNET_INGRESS", 15),
   ("INTERNAL", 0),
   ("CDN_TRAFFIC", 45),
   ("VIDEO_STREAMING", 60),
   ("BACKUP_TRAFFIC", 35),
   ("OTHER", 10)]

/-- self.peak_surcharge = 1.5 (cost_model.py line 28). -/
def peak_surcharge : ℚ := 3 / 2

/-- self.cloud_prefixes (cost_model.py lines 34-38). -/
def cloud_prefixes : List String :=
  ["20.", "13.", "52.", "54.",
   "35.", "34.", "8.8.",
   "23.", "45.", "51."]

/-- self.internal_prefixes (cost_model.py lines 41-45). -/
def internal_prefixes : List String :=
  ["192.168.", "10.", "172.16.", "172.17.", "172.18.", "172.19.",
   "172.20.", "172.21.", "172.22.", "172.23.", "172.24.", "172.25.",
   "172.26.", "172.27.", "172.28.", "172.29.", "172.30.", "172.31."]

/-- classify_traffic (cost_model.py lines 47-69), translated branch for branch. -/
def classify_traffic (src_ip dst_ip : String) : String :=
  if (internal_prefixes.any fun p => startswith src_ip p) &&
     (internal_prefixes.any fun p => startswith dst_ip p) then
    "INTERNAL"
  else
    let src_is_internal := internal_prefixes.any fun p => startswith src_ip p
    let is_cloud_dest := cloud_prefixes.any fun p => startswith dst_ip p
    if src_is_internal && is_cloud_dest then "CLOUD_EGRESS"
    else if src_is_internal then "INTERNET_EGRESS"
    else if !src_is_internal && (internal_prefixes.any fun p => startswith dst_ip p) then
      "INTERNET_INGRESS"
    else "OTHER"

/-- Membership of an address in the internal prefix set, written as the
specification words it: the address matches some configured internal
prefix by a starts-with test.  Used only by the specification-side
classifier below. -/
def isInternalAddr (a : String) : Bool :=
  internal_prefixes.any fun p => startswith a p

/-- Membership of an address in the cloud provider prefix set (see
isInternalAddr). -/
def isCloudAddr (a : String) : Bool :=
  cloud_prefixes.any fun p => startswith a p

/-- The classifier as the specification states it: an ordered list of five
rules, first match wins.  This definition follows the wording of the spec
(section 4.1) and is compared with classify_traffic, which is translated
from the source. -/
def classify_traffic_spec (src dst : String) : String :=
  if isInternalAddr src && isInternalAddr dst then "INTERNAL"
  else if isInternalAddr src && isCloudAddr dst then "CLOUD_EGRESS"
  else if isInternalAddr src then "INTERNET_EGRESS"
  else if !isInternalAddr src && isInternalAddr dst then "INTERNET_INGRESS"
  else "OTHER"

/-- calculate_flow_cost_nrs (cost_model.py lines 71-90).  The Python
function receives the whole flow record and reads three fields from it:
traffic_type via .get with default OTHER, total_bytes, and is_peak via
.get with default False.  We pass the three field values directly; the
two dict-get defaults are applied at the call sites. -/
def calculate_flow_cost_nrs (traffic_type : String) (total_bytes : ℚ) (is_peak : Bool) : ℚ :=
  let total_gb := total_bytes / 1024 ^ 3
  let base_rate := (pricing.lookup traffic_type).getD 10
  let cost_nrs := total_gb * base_rate
  let cost_nrs := if is_peak then cost_nrs * peak_surcharge else cost_nrs
  pyround cost_nrs 4

/-- Python membership test h in self.peak_hours, where peak_hours is
range(9, 23): true exactly when the numeric value h equals an integer k
with 9 <= k <= 22 (a non-integral value is never an element of a range). -/
def hourIsPeak (h : ℚ) : Bool := h.den == 1 && (9 ≤ h.num && h.num ≤ 22)

/-- One row of the flows DataFrame.  The four derived columns added by
enrich_flows_with_costs are optional: a raw input frame has them absent. -/
structure FlowRow where
  src_ip : String
  dst_ip : String
  total_bytes : ℚ
  hour : Option ℚ
  traffic_type : Option String
  is_peak : Option Bool
  cost_nrs : Option ℚ
  total_gb : Option ℚ
deriving Repr, DecidableEq

/-- enrich_flows_with_costs (cost_model.py lines 92-115).  The Python
function assigns four new columns to the caller df in place and returns
the same frame; the value of the updated frame is modelled here, so the
result of this function is what the caller df holds after the call. -/
def enrich_flows_with_costs (df : List FlowRow) : List FlowRow :=
  df.map fun row =>
    let tt := classify_traffic row.src_ip row.dst_ip
    let peak := match row.hour with
      | some h => hourIsPeak h
      | none => false
    { row with
      traffic_type := some tt
      is_peak := some peak
      cost_nrs := some (calculate_flow_cost_nrs tt row.total_bytes peak)
      total_gb := some (row.total_bytes / 1024 ^ 3) }

/-- A fully enriched flow row, the input shape generate_cost_report
requires (it indexes all of these columns unconditionally, except is_peak
whose presence test on enriched frames always succeeds). -/
structure CostedFlow where
  src_ip : String
  dst_ip : String
  total_bytes : ℚ
  traffic_type : String
  is_peak : Bool
  cost_nrs : ℚ
  total_gb : ℚ
deriving Repr, DecidableEq

/-- Sum of the cost_nrs column (cost_model.py line 124). -/
def total_cost_nrs (df : List CostedFlow) : ℚ := (df.map (·.cost_nrs)).sum

/-- Sum of the total_gb column (cost_model.py line 125). -/
def total_data_gb (df : List CostedFlow) : ℚ := (df.map (·.total_gb)).sum

/-- Cost summed over the rows with is_peak == True (cost_model.py lines 150-153). -/
def peak_cost (df : List CostedFlow) : ℚ :=
  ((df.filter fun f => f.is_peak == true).map (·.cost_nrs)).sum

/-- Cost summed over the rows with is_peak == False (cost_model.py lines 151-154). -/
def off_peak_cost (df : List CostedFlow) : ℚ :=
  ((df.filter fun f => f.is_peak == false).map (·.cost_nrs)).sum

/-- peak_percentage (cost_model.py line 156). -/
def peak_percentage (df : List CostedFlow) : ℚ :=
  if total_cost_nrs df > 0 then peak_cost df / total_cost_nrs df * 100 else 0

/-- One value of the breakdown mapping (cost_model.py lines 131-135). -/
structure BreakdownEntry where
  total_gb : ℚ
  cost_nrs : ℚ
  src_ip_count : ℕ
deriving Repr, DecidableEq

/-- Cost breakdown by traffic type (cost_model.py lines 131-135): group
rows by traffic_type, sum gb and cost, count rows, round to 4 places.
pandas orders the group keys by sorting; the key order is modelled as
first-occurrence order, which no claim observes. -/
def cost_breakdown (df : List CostedFlow) : List (String × BreakdownEntry) :=
  ((df.map (·.traffic_type)).eraseDups).map fun t =>
    let g := df.filter fun f => f.traffic_type == t
    (t, { total_gb := pyround ((g.map (·.total_gb)).sum) 4
          cost_nrs := pyround ((g.map (·.cost_nrs)).sum) 4
          src_ip_count := g.length })

/-- df.nlargest(10, cost column) (cost_model.py lines 138-140): the first
10 rows of the frame stably sorted descending by cost (pandas nlargest
with the default keep=first uses a stable sort on the key column).  The
source then projects five display columns; the projection is elided and
the selected rows are kept whole. -/
def top_expensive_flows (df : List CostedFlow) : List CostedFlow :=
  (df.mergeSort fun a b => decide (b.cost_nrs ≤ a.cost_nrs)).take 10

/-- One value of the per-source aggregation (cost_model.py lines 143-146). -/
structure SourceEntry where
  cost_nrs : ℚ
  total_gb : ℚ
deriving Repr, DecidableEq

/-- Cost by source IP (cost_model.py lines 143-146): group by src_ip, sum
cost and gb, keep the 5 sources of greatest summed cost. -/
def top_costly_sources (df : List CostedFlow) : List (String × SourceEntry) :=
  let entries := ((df.map (·.src_ip)).eraseDups).map fun s =>
    let g := df.filter fun f => f.src_ip == s
    (s, SourceEntry.mk ((g.map (·.cost_nrs)).sum) ((g.map (·.total_gb)).sum))
  (entries.mergeSort fun a b => decide (b.2.cost_nrs ≤ a.2.cost_nrs)).take 5

/-- One recommendation entry (cost_model.py lines 193-262); the free-text
description field is elided. -/
structure Recommendation where
  id : String
  title : String
  suggestion : String
  potential_savings_nrs : ℚ
  priority : String
deriving Repr, DecidableEq

/-- _generate_recommendations (cost_model.py lines 193-262).  The decimal
literals 0.3, 0.6, 0.4, 0.5, 0.2, 0.15, 0.25 of the source are the exact
rationals written here.  The is_peak column is always present on the
input shape, so the line 215 presence test is always true. -/
def _generate_recommendations (df : List CostedFlow) (total_cost : ℚ) : List Recommendation :=
  let cloud_egress := df.filter fun f => f.traffic_type == "CLOUD_EGRESS"
  let recs_cloud : List Recommendation :=
    if !cloud_egress.isEmpty then
      let cloud_cost := (cloud_egress.map (·.cost_nrs)).sum
      if cloud_cost > 100 then
        [{ id := "CLOUD_EGRESS_OPT"
           title := "Cloud Egress Optimization"
           suggestion := "Use CDN for static content, schedule backups during off-peak hours"
           potential_savings_nrs := pyround (cloud_cost * (3 / 10)) 2
           priority := "HIGH" }]
      else []
    else []
  let peak_traffic := df.filter fun f => f.is_peak == true
  let rec_peak_cost := (peak_traffic.map (·.cost_nrs)).sum
  let recs_peak : List Recommendation :=
    if rec_peak_cost > total_cost * (6 / 10) then
      [{ id := "PEAK_HOUR_OPT"
         title := "Peak Hour Traffic Management"
         suggestion := "Schedule large transfers for off-peak hours (11 PM - 9 AM)"
         potential_savings_nrs := pyround (rec_peak_cost * (4 / 10)) 2
         priority := "MEDIUM" }]
    else []
  let large_flows := df.filter fun f => f.total_gb > 1 / 2
  let recs_large : List Recommendation :=
    if large_flows.length > 3 then
      [{ id := "LARGE_FLOW_OPT"
         title := "Large Flow Optimization"
         suggestion := "Implement traffic shaping or compression for large transfers"
         potential_savings_nrs := pyround ((large_flows.map (·.cost_nrs)).sum * (2 / 10)) 2
         priority := "MEDIUM" }]
    else []
  recs_cloud ++ recs_peak ++ recs_large ++
    [{ id := "TRAFFIC_MONITORING"
       title := "Continuous Traffic Monitoring"
       suggestion := "Set up daily cost alerts and weekly reports"
       potential_savings_nrs := pyround (total_cost * (15 / 100)) 2
       priority := "LOW" },
     { id := "BANDWIDTH_UPGRADE"
       title := "Consider Bandwidth Upgrade"
       suggestion := "Analyze if upgrading bandwidth plan reduces overall cost"
       potential_savings_nrs := pyround (total_cost * (25 / 100)) 2
       priority := "LOW" }]

/-- The estimated_savings block (cost_model.py lines 264-277). -/
structure SavingsEstimate where
  immediate_savings_nrs : ℚ
  monthly_savings_nrs : ℚ
  savings_percentage : ℚ
deriving Repr, DecidableEq

/-- _estimate_savings (cost_model.py lines 264-277). -/
def _estimate_savings (df : List CostedFlow) (total_cost : ℚ) : SavingsEstimate :=
  let total_potential_savings :=
    ((_generate_recommendations df total_cost).map (·.potential_savings_nrs)).sum
  let monthly_savings := total_potential_savings * 24 * 30
  { immediate_savings_nrs := pyround total_potential_savings 2
    monthly_savings_nrs := pyround monthly_savings 2
    savings_percentage := pyround (total_potential_savings / max total_cost 1 * 100) 1 }

/-- The summary block of the report (cost_model.py lines 174-183). -/
structure ReportSummary where
  total_flows : ℕ
  total_data_gb : ℚ
  total_cost_nrs : ℚ
  average_cost_per_gb : ℚ
  monthly_projection_nrs : ℚ
  peak_traffic_cost_nrs : ℚ
  peak_traffic_percentage : ℚ
  off_peak_cost_nrs : ℚ
deriving Repr, DecidableEq

/-- The report structure (cost_model.py lines 166-189), metadata elided. -/
structure Report where
  summary : ReportSummary
  breakdown : List (String × BreakdownEntry)
  top_expensive_flows : List CostedFlow
  top_costly_sources : List (String × SourceEntry)
  recommendations : List Recommendation
  estimated_savings : SavingsEstimate
deriving Repr, DecidableEq

/-- generate_cost_report (cost_model.py lines 117-191).  The line 121
coercion pd.to_numeric(...).fillna(0) is the identity on the numeric
byte counts modelled here. -/
def generate_cost_report (df : List CostedFlow) : Report :=
  { summary := {
      total_flows := df.length
      total_data_gb := pyround (total_data_gb df) 4
      total_cost_nrs := pyround (total_cost_nrs df) 2
      average_cost_per_gb := pyround (total_cost_nrs df / max (total_data_gb df) 1) 2
      monthly_projection_nrs := pyround (total_cost_nrs df * 24 * 30) 2
      peak_traffic_cost_nrs := pyround (peak_cost df) 2
      peak_traffic_percentage := pyround (peak_percentage df) 1
      off_peak_cost_nrs := pyround (off_peak_cost df) 2 }
    breakdown := cost_breakdown df
    top_expensive_flows := top_expensive_flows df
    top_costly_sources := top_costly_sources df
    recommendations := _generate_recommendations df (total_cost_nrs df)
    estimated_savings := _estimate_savings df (total_cost_nrs df) }

/-- A raw one-row frame (internal source, cloud destination, hour 10),
used to exhibit that enrichment rewrites the frame of the caller. -/
def df0 : List FlowRow :=
  [{ src_ip := "10.0.0.1", dst_ip := "8.8.8.8", total_bytes := 2 ^ 30,
     hour := some 10, traffic_type := none, is_peak := none,
     cost_nrs := none, total_gb := none }]

/-- A one-flow costed frame with total cost 2/5 NRS, used to exhibit the
divisor floor in the savings percentage. -/
def df1 : List CostedFlow :=
  [{ src_ip := "1.2.3.4", dst_ip := "5.6.7.8", total_bytes := 42949672,
     traffic_type := "OTHER", is_peak := false, cost_nrs := 2 / 5,
     total_gb := 1 / 25 }]

/-! ## Helper lemmas -/

theorem getD_lookup_nonneg (l : List (String × ℚ)) (k : String) (d : ℚ)
    (hl : ∀ p ∈ l, 0 ≤ p.2) (hd : 0 ≤ d) : 0 ≤ (l.lookup k).getD d := by
  induction l with
  | nil => simpa using hd
  | cons a t ih =>
    by_cases hk : k == a.1
    · simp [List.lookup, hk]
      exact hl a (List.mem_cons_self a t)
    · simp only [List.lookup, Bool.not_eq_true] at hk ⊢
      rw [hk]
      exact ih fun p hp => hl p (List.mem_cons_of_mem a hp)

theorem round_nonneg {x : ℚ} (hx : 0 ≤ x) : 0 ≤ round x := by
  rw [round_eq, Int.floor_nonneg]
  linarith

theorem pyround_nonneg {x : ℚ} {n : ℕ} (hx : 0 ≤ x) : 0 ≤ pyround x n := by
  unfold pyround
  apply div_nonneg _ (by positivity)
  exact_mod_cast round_nonneg (by positivity)

theorem pyround_zero (n : ℕ) : pyround 0 n = 0 := by
  simp [pyround]

/-! ## Claim theorems -/

/-- C1: for every pair of address strings, classify_traffic returns the
category determined by the first matching rule of the ordered five-rule
list of the specification, with prefix matching done by starts-with
against the configured internal and cloud prefix lists. -/
theorem classify_traffic_matches_spec_rules (src dst : String) :
    classify_traffic src dst = classify_traffic_spec src dst := by
  unfold classify_traffic classify_traffic_spec isInternalAddr isCloudAddr
  cases hs : internal_prefixes.any fun p => startswith src p <;>
    cases hd : internal_prefixes.any fun p => startswith dst p <;>
      cases hc : cloud_prefixes.any fun p => startswith dst p <;>
        simp [hs, hd, hc]

/-- C2 counterexample: the claim says the returned cost is never negative
and that negative volume yields zero; but at category OTHER, volume
-(2^30) bytes and off-peak, calculate_flow_cost_nrs returns -10, which is
negative and nonzero. -/
theorem calculate_flow_cost_negative_counterexample :
    calculate_flow_cost_nrs "OTHER" (-(2 ^ 30)) false < 0 ∧
    calculate_flow_cost_nrs "OTHER" (-(2 ^ 30)) false ≠ 0 := by
  have hl : pricing.lookup "OTHER" = some 10 := by decide
  have h : calculate_flow_cost_nrs "OTHER" (-(2 ^ 30)) false = -10 := by
    simp only [calculate_flow_cost_nrs, hl, Option.getD_some, Bool.false_eq_true, if_false,
      pyround]
    norm_num [round_eq]
  rw [h]
  norm_num

/-- C2 amended: for every category and peak flag, if the byte volume is
non-negative then the cost returned by calculate_flow_cost_nrs is
non-negative, and zero byte volume yields exactly zero cost. -/
theorem calculate_flow_cost_nonneg (tt : String) (b : ℚ) (pk : Bool) (hb : 0 ≤ b) :
    0 ≤ calculate_flow_cost_nrs tt b pk ∧
    (b = 0 → calculate_flow_cost_nrs tt b pk = 0) := by
  have hrate : 0 ≤ (pricing.lookup tt).getD 10 :=
    getD_lookup_nonneg _ _ _ (by decide) (by norm_num)
  have hbase : 0 ≤ b / 1024 ^ 3 * ((pricing.lookup tt).getD 10) :=
    mul_nonneg (div_nonneg hb (by norm_num)) hrate
  constructor
  · unfold calculate_flow_cost_nrs
    apply pyround_nonneg
    cases pk
    · simpa using hbase
    · simp only [if_true]
      exact mul_nonneg hbase (by norm_num [peak_surcharge])
  · rintro rfl
    unfold calculate_flow_cost_nrs
    cases pk <;> simp [pyround]

/-- C2 amended, witness at category CLOUD_EGRESS, 40 binary GB, peak. -/
theorem calculate_flow_cost_nonneg_witness :
    (0 : ℚ) ≤ 42949672960 ∧
    (0 ≤ calculate_flow_cost_nrs "CLOUD_EGRESS" 42949672960 true ∧
      ((42949672960 : ℚ) = 0 → calculate_flow_cost_nrs "CLOUD_EGRESS" 42949672960 true = 0)) :=
  ⟨by norm_num, calculate_flow_cost_nonneg "CLOUD_EGRESS" 42949672960 true (by norm_num)⟩

/-- C3: a flow whose source and destination both start with an internal
prefix is classified INTERNAL, and the cost of category INTERNAL is 0 for
every byte volume and peak flag (the default rate table maps INTERNAL to
rate 0). -/
theorem internal_flows_classified_internal_and_free (src dst : String)
    (hs : ∃ p ∈ internal_prefixes, startswith src p = true)
    (hd : ∃ p ∈ internal_prefixes, startswith dst p = true) :
    classify_traffic src dst = "INTERNAL" ∧
    ∀ (b : ℚ) (pk : Bool), calculate_flow_cost_nrs "INTERNAL" b pk = 0 := by
  constructor
  · have h1 : (internal_prefixes.any fun p => startswith src p) = true :=
      List.any_eq_true.mpr hs
    have h2 : (internal_prefixes.any fun p => startswith dst p) = true :=
      List.any_eq_true.mpr hd
    unfold classify_traffic
    rw [h1, h2]
    simp
  · intro b pk
    have hl : pricing.lookup "INTERNAL" = some 0 := by decide
    simp only [calculate_flow_cost_nrs, hl, Option.getD_some, mul_zero]
    cases pk <;> simp [pyround]

/-- C3 witness at the pair (10.0.0.1, 192.168.1.5). -/
theorem internal_flows_classified_internal_and_free_witness :
    (∃ p ∈ internal_prefixes, startswith "10.0.0.1" p = true) ∧
    (∃ p ∈ internal_prefixes, startswith "192.168.1.5" p = true) ∧
    (classify_traffic "10.0.0.1" "192.168.1.5" = "INTERNAL" ∧
      ∀ (b : ℚ) (pk : Bool), calculate_flow_cost_nrs "INTERNAL" b pk = 0) :=
  ⟨by decide, by decide,
    internal_flows_classified_internal_and_free "10.0.0.1" "192.168.1.5" (by decide) (by decide)⟩

/-- C10: the derived is_peak flag of an hour value h is true exactly when
h equals one of the integers 9 through 22; any other numeric value,
including 23, 24, negatives and non-integers, gives false. -/
theorem hourIsPeak_iff_integer_9_to_22 (h : ℚ) :
    hourIsPeak h = true ↔ ∃ k : ℤ, h = (k : ℚ) ∧ 9 ≤ k ∧ k ≤ 22 := by
  unfold hourIsPeak
  simp only [Bool.and_eq_true, beq_iff_eq, decide_eq_true_eq]
  constructor
  · rintro ⟨hden, h9, h22⟩
    exact ⟨h.num, ((Rat.den_eq_one_iff h).mp hden).symm, h9, h22⟩
  · rintro ⟨k, rfl, h9, h22⟩
    refine ⟨Rat.den_intCast k, ?_, ?_⟩ <;> rw [Rat.num_intCast] <;> assumption

/-- Rounding a value and rounding its 3/2 multiple differ by at most one
unit of the rounding grid: the key fact behind the surcharge relation. -/
theorem round_three_half_bound (y : ℚ) :
    |((round (3 / 2 * y) : ℤ) : ℚ) - 3 / 2 * ((round y : ℤ) : ℚ)| ≤ 1 := by
  have h1 := abs_le.mp (abs_sub_round y)
  have h2 := abs_le.mp (abs_sub_round (3 / 2 * y))
  set a : ℤ := round y with ha
  set b : ℤ := round (3 / 2 * y) with hb
  have hup : ((2 * b - 3 * a : ℤ) : ℚ) ≤ 5 / 2 := by push_cast; linarith
  have hlo : -(5 / 2) ≤ ((2 * b - 3 * a : ℤ) : ℚ) := by push_cast; linarith
  have hub : (2 * b - 3 * a : ℤ) < 3 := by
    have : ((2 * b - 3 * a : ℤ) : ℚ) < 3 := lt_of_le_of_lt hup (by norm_num)
    exact_mod_cast this
  have hlb : (-3 : ℤ) < 2 * b - 3 * a := by
    have : (-3 : ℚ) < ((2 * b - 3 * a : ℤ) : ℚ) := lt_of_lt_of_le (by norm_num) hlo
    exact_mod_cast this
  have hq1 : ((2 * b - 3 * a : ℤ) : ℚ) ≤ 2 := by exact_mod_cast (by omega : (2 * b - 3 * a : ℤ) ≤ 2)
  have hq2 : (-2 : ℚ) ≤ ((2 * b - 3 * a : ℤ) : ℚ) := by
    exact_mod_cast (by omega : (-2 : ℤ) ≤ 2 * b - 3 * a)
  rw [abs_le]
  push_cast at hq1 hq2 ⊢
  constructor <;> linarith

/-- C4: for every category and byte volume, the peak cost equals the
off-peak cost multiplied by the 1.5 surcharge, up to the 4-decimal
rounding tolerance of 1e-4. -/
theorem peak_flag_multiplies_cost_by_surcharge (tt : String) (b : ℚ) :
    |calculate_flow_cost_nrs tt b true - calculate_flow_cost_nrs tt b false * peak_surcharge| ≤
      1 / 10000 := by
  unfold calculate_flow_cost_nrs pyround peak_surcharge
  simp only [if_true, Bool.false_eq_true, if_false]
  set x : ℚ := b / 1024 ^ 3 * ((pricing.lookup tt).getD 10) with hx
  rw [show x * (3 / 2) * 10 ^ 4 = 3 / 2 * (x * 10 ^ 4) by ring]
  have hkey := round_three_half_bound (x * 10 ^ 4)
  rw [show ((round (3 / 2 * (x * 10 ^ 4)) : ℤ) : ℚ) / 10 ^ 4 -
        ((round (x * 10 ^ 4) : ℤ) : ℚ) / 10 ^ 4 * (3 / 2) =
        (((round (3 / 2 * (x * 10 ^ 4)) : ℤ) : ℚ) - 3 / 2 * ((round (x * 10 ^ 4) : ℤ) : ℚ)) /
          10 ^ 4 by ring]
  rw [abs_div]
  rw [show |(10 : ℚ) ^ 4| = 10 ^ 4 by norm_num]
  rw [div_le_div_iff₀ (by norm_num) (by norm_num)]
  linarith

/-- The partition of the cost sum by the boolean is_peak column is exact:
summing the peak rows and the off-peak rows recovers the total. -/
theorem peak_off_peak_partition (df : List CostedFlow) :
    peak_cost df + off_peak_cost df = total_cost_nrs df := by
  unfold peak_cost off_peak_cost total_cost_nrs
  simp only [beq_true, beq_false]
  induction df with
  | nil => simp
  | cons f t ih =>
    cases hf : f.is_peak <;> simp [List.filter_cons, hf] <;> linarith [ih]

/-- C6: for every collection of costed flows with non-negative costs (the
ClassifiedFlow invariant), peak cost plus off-peak cost equals the total
cost exactly, and the peak percentage is peak cost over total cost times
100, defaulting to 0 when the total cost is 0. -/
theorem peak_split_sums_to_total (df : List CostedFlow) (h : ∀ f ∈ df, 0 ≤ f.cost_nrs) :
    peak_cost df + off_peak_cost df = total_cost_nrs df ∧
    (total_cost_nrs df = 0 → peak_percentage df = 0) ∧
    (total_cost_nrs df ≠ 0 →
      peak_percentage df = peak_cost df / total_cost_nrs df * 100) := by
  refine ⟨peak_off_peak_partition df, ?_, ?_⟩
  · intro h0
    unfold peak_percentage
    rw [h0]
    norm_num
  · intro h0
    have hnn : 0 ≤ total_cost_nrs df := by
      apply List.sum_nonneg
      intro x hx
      obtain ⟨f, hf, rfl⟩ := List.mem_map.mp hx
      exact h f hf
    have hpos : 0 < total_cost_nrs df := lt_of_le_of_ne hnn (Ne.symm h0)
    unfold peak_percentage
    rw [if_pos hpos]

/-- A two-flow costed frame used as the C6 witness input. -/
def wdf6 : List CostedFlow :=
  [⟨"10.0.0.1", "8.8.8.8", 2 ^ 31, "CLOUD_EGRESS", true, 255, 2⟩,
   ⟨"10.0.0.2", "99.0.0.1", 2 ^ 30, "INTERNET_EGRESS", false, 75, 1⟩]

/-- C6 witness at a concrete two-flow collection. -/
theorem peak_split_sums_to_total_witness :
    (∀ f ∈ wdf6, 0 ≤ f.cost_nrs) ∧
    (peak_cost wdf6 + off_peak_cost wdf6 = total_cost_nrs wdf6 ∧
      (total_cost_nrs wdf6 = 0 → peak_percentage wdf6 = 0) ∧
      (total_cost_nrs wdf6 ≠ 0 →
        peak_percentage wdf6 = peak_cost wdf6 / total_cost_nrs wdf6 * 100)) :=
  ⟨by decide, peak_split_sums_to_total wdf6 (by decide)⟩

theorem eraseDups_nil {α : Type} [BEq α] : (([] : List α).eraseDups) = [] := rfl

/-- C5: the report generated from an empty flow collection has zero flow
count, zero total cost, zero total GB, empty breakdown, empty top-N
lists, zero percentage fields, and exactly the two unconditional
low-priority recommendations (continuous monitoring and bandwidth
review). -/
theorem generate_cost_report_empty_ok :
    (generate_cost_report []).summary.total_flows = 0 ∧
    (generate_cost_report []).summary.total_cost_nrs = 0 ∧
    (generate_cost_report []).summary.total_data_gb = 0 ∧
    (generate_cost_report []).breakdown = [] ∧
    (generate_cost_report []).top_expensive_flows = [] ∧
    (generate_cost_report []).top_costly_sources = [] ∧
    (generate_cost_report []).summary.peak_traffic_cost_nrs = 0 ∧
    (generate_cost_report []).summary.off_peak_cost_nrs = 0 ∧
    (generate_cost_report []).summary.peak_traffic_percentage = 0 ∧
    (generate_cost_report []).estimated_savings.savings_percentage = 0 ∧
    (generate_cost_report []).recommendations.map (fun r => (r.id, r.priority)) =
      [("TRAFFIC_MONITORING", "LOW"), ("BANDWIDTH_UPGRADE", "LOW")] := by
  simp [generate_cost_report, total_cost_nrs, total_data_gb, peak_cost, off_peak_cost,
    peak_percentage, cost_breakdown, top_expensive_flows, top_costly_sources,
    _generate_recommendations, _estimate_savings, pyround, eraseDups_nil]

/-- C9 counterexample: the claim says the enrichment leaves the caller
input collection unchanged, but enrich_flows_with_costs assigns four new
columns to the caller frame in place, so the frame held by the caller
after the call (the value returned here) differs from the input: on the
one-row raw frame df0 the traffic_type column changes from absent to
assigned. -/
theorem enrich_mutates_caller_frame_counterexample :
    enrich_flows_with_costs df0 ≠ df0 := by
  intro hEq
  have h := congrArg (fun l => l.map fun r => r.traffic_type) hEq
  simp [enrich_flows_with_costs, df0] at h

/-- C9 amended: enrich_flows_with_costs adds the four derived columns to
the caller collection in place (so the input frame is modified, contrary
to the claim), but it preserves the row count and every original field
(src_ip, dst_ip, total_bytes, hour) of every row, and neither adds nor
removes rows; generate_cost_report only reads the frame (its total_bytes
coercion is the identity on numeric data). -/
theorem enrich_preserves_original_columns (df : List FlowRow) :
    (enrich_flows_with_costs df).map
        (fun r => (r.src_ip, r.dst_ip, r.total_bytes, r.hour)) =
      df.map (fun r => (r.src_ip, r.dst_ip, r.total_bytes, r.hour)) ∧
    (enrich_flows_with_costs df).length = df.length := by
  constructor <;> simp [enrich_flows_with_costs]

theorem pyround_of_hundredth (q : ℚ) (k : ℤ) (hq : q * 100 = (k : ℚ)) : pyround q 2 = q := by
  unfold pyround
  rw [show ((10 : ℚ) ^ 2) = 100 by norm_num, hq, round_intCast]
  field_simp
  linarith

theorem pyround2_mul_100_int (x : ℚ) : ∃ m : ℤ, pyround x 2 * 100 = (m : ℚ) := by
  refine ⟨round (x * 10 ^ 2), ?_⟩
  unfold pyround
  rw [show ((10 : ℚ) ^ 2) = 100 by norm_num]
  field_simp

theorem savings_is_hundredth (df : List CostedFlow) (t : ℚ) :
    ∀ r ∈ _generate_recommendations df t,
      ∃ m : ℤ, r.potential_savings_nrs * 100 = (m : ℚ) := by
  intro r hr
  unfold _generate_recommendations at hr
  simp only [List.mem_append, List.mem_cons, List.not_mem_nil, or_false] at hr
  rcases hr with ((h | h) | h) | h | h
  · split at h
    · split at h
      · rw [List.mem_singleton] at h
        subst h
        exact pyround2_mul_100_int _
      · exact absurd h (List.not_mem_nil r)
    · exact absurd h (List.not_mem_nil r)
  · split at h
    · rw [List.mem_singleton] at h
      subst h
      exact pyround2_mul_100_int _
    · exact absurd h (List.not_mem_nil r)
  · split at h
    · rw [List.mem_singleton] at h
      subst h
      exact pyround2_mul_100_int _
    · exact absurd h (List.not_mem_nil r)
  · subst h
    exact pyround2_mul_100_int _
  · subst h
    exact pyround2_mul_100_int _

theorem sum_hundredths (l : List ℚ) (h : ∀ q ∈ l, ∃ m : ℤ, q * 100 = (m : ℚ)) :
    ∃ K : ℤ, l.sum * 100 = (K : ℚ) := by
  induction l with
  | nil => exact ⟨0, by simp⟩
  | cons a t ih =>
    obtain ⟨m, hm⟩ := h a (List.mem_cons_self a t)
    obtain ⟨K, hK⟩ := ih fun q hq => h q (List.mem_cons_of_mem a hq)
    refine ⟨m + K, ?_⟩
    push_cast
    rw [List.sum_cons]
    linarith

/-- C8 counterexample: the claim says the savings percentage is the
recommendation-savings sum divided by the total cost, times 100 (0 only
when the total cost is 0); on the one-flow frame df1 the total cost is
2/5, the code divides by max(total, 1) = 1 and reports 16, while the
claimed formula gives 40. -/
theorem estimate_savings_divisor_counterexample :
    total_cost_nrs df1 ≠ 0 ∧
    (_estimate_savings df1 (total_cost_nrs df1)).savings_percentage = 16 ∧
    ((_generate_recommendations df1 (total_cost_nrs df1)).map
        (fun r => r.potential_savings_nrs)).sum / total_cost_nrs df1 * 100 = 40 := by
  have ht : total_cost_nrs df1 = 2 / 5 := by
    simp [total_cost_nrs, df1]
  have hstep : (_generate_recommendations df1 (2 / 5)).map
      (fun r => r.potential_savings_nrs) =
      [pyround (2 / 5 * (15 / 100)) 2, pyround (2 / 5 * (25 / 100)) 2] := by
    with_unfolding_all rfl
  have hrecs : (_generate_recommendations df1 (total_cost_nrs df1)).map
      (fun r => r.potential_savings_nrs) = [3 / 50, 1 / 10] := by
    rw [ht, hstep]
    norm_num [pyround, round_eq]
  refine ⟨by rw [ht]; norm_num, ?_, by rw [hrecs, ht]; norm_num⟩
  unfold _estimate_savings
  rw [show ((_generate_recommendations df1 (total_cost_nrs df1)).map
      (·.potential_savings_nrs)).sum = (4 : ℚ) / 25 by rw [hrecs]; norm_num]
  rw [ht]
  norm_num [pyround, round_eq]

/-- C8 amended: the estimated immediate savings equal the sum of the
suggested-savings amounts of the recommendations, and the monthly
savings equal that sum times 24 times 30 exactly (both survive the
2-decimal rounding because every recommendation amount is already a
whole number of hundredths); the savings percentage is that sum divided
by max(total cost, 1), times 100, rounded to one decimal place. -/
theorem estimate_savings_fields (df : List CostedFlow) (t : ℚ) :
    (_estimate_savings df t).immediate_savings_nrs =
      ((_generate_recommendations df t).map (fun r => r.potential_savings_nrs)).sum ∧
    (_estimate_savings df t).monthly_savings_nrs =
      ((_generate_recommendations df t).map (fun r => r.potential_savings_nrs)).sum *
        24 * 30 ∧
    (_estimate_savings df t).savings_percentage =
      pyround (((_generate_recommendations df t).map
          (fun r => r.potential_savings_nrs)).sum / max t 1 * 100) 1 := by
  obtain ⟨K, hK⟩ := sum_hundredths
    ((_generate_recommendations df t).map (fun r => r.potential_savings_nrs))
    (by
      intro q hq
      obtain ⟨r, hr, rfl⟩ := List.mem_map.mp hq
      exact savings_is_hundredth df t r hr)
  refine ⟨?_, ?_, rfl⟩
  · exact pyround_of_hundredth _ K hK
  · refine pyround_of_hundredth _ (720 * K) ?_
    calc ((_generate_recommendations df t).map (fun r => r.potential_savings_nrs)).sum *
          24 * 30 * 100
        = ((_generate_recommendations df t).map (fun r => r.potential_savings_nrs)).sum *
          100 * 720 := by ring
      _ = (K : ℚ) * 720 := by rw [hK]
      _ = ((720 * K : ℤ) : ℚ) := by push_cast; ring

/-- C7: for every input collection of n flows, the top-expensive-flows
list has length min(10, n); it is ordered descending by cost; the input
splits (as a multiset) into the selected list and a rest whose every
cost is dominated by every selected cost; and flows of equal cost keep
their original relative input order (the equal-cost rows of the
selection form a sublist of the equal-cost rows of the input). -/
theorem top_expensive_flows_selects_largest (df : List CostedFlow) :
    (top_expensive_flows df).length = min 10 df.length ∧
    List.Pairwise (fun a b => b.cost_nrs ≤ a.cost_nrs) (top_expensive_flows df) ∧
    (∃ rest : List CostedFlow,
      df.Perm (top_expensive_flows df ++ rest) ∧
      ∀ a ∈ top_expensive_flows df, ∀ b ∈ rest, b.cost_nrs ≤ a.cost_nrs) ∧
    ∀ c : ℚ,
      ((top_expensive_flows df).filter fun f => f.cost_nrs == c).Sublist
        (df.filter fun f => f.cost_nrs == c) := by
  have htrans : ∀ a b c : CostedFlow,
      (fun a b : CostedFlow => decide (b.cost_nrs ≤ a.cost_nrs)) a b = true →
      (fun a b : CostedFlow => decide (b.cost_nrs ≤ a.cost_nrs)) b c = true →
      (fun a b : CostedFlow => decide (b.cost_nrs ≤ a.cost_nrs)) a c = true := by
    intro a b c
    simp only [decide_eq_true_eq]
    exact fun h1 h2 => le_trans h2 h1
  have htotal : ∀ a b : CostedFlow,
      ((fun a b : CostedFlow => decide (b.cost_nrs ≤ a.cost_nrs)) a b ||
        (fun a b : CostedFlow => decide (b.cost_nrs ≤ a.cost_nrs)) b a) = true := by
    intro a b
    simp only [Bool.or_eq_true, decide_eq_true_eq]
    exact le_total b.cost_nrs a.cost_nrs
  have hsorted := List.sorted_mergeSort htrans htotal df
  refine ⟨?_, ?_, ?_, ?_⟩
  · unfold top_expensive_flows
    rw [List.length_take, List.length_mergeSort]
  · unfold top_expensive_flows
    exact ((List.Pairwise.sublist (List.take_sublist 10 _) hsorted).imp
      (by simp only [decide_eq_true_eq]; exact fun h => h))
  · refine ⟨(df.mergeSort fun a b : CostedFlow => decide (b.cost_nrs ≤ a.cost_nrs)).drop 10,
      ?_, ?_⟩
    · unfold top_expensive_flows
      rw [List.take_append_drop]
      exact (List.mergeSort_perm df _).symm
    · intro a ha b hb
      have hps : List.Pairwise
          (fun x y : CostedFlow =>
            (fun a b : CostedFlow => decide (b.cost_nrs ≤ a.cost_nrs)) x y = true)
          (((df.mergeSort fun a b : CostedFlow => decide (b.cost_nrs ≤ a.cost_nrs)).take 10) ++
            ((df.mergeSort fun a b : CostedFlow => decide (b.cost_nrs ≤ a.cost_nrs)).drop 10)) := by
        rw [List.take_append_drop]
        exact hsorted
      have := (List.pairwise_append.mp hps).2.2 a ha b hb
      simpa using this
  · intro c
    have hall : ∀ a ∈ df.filter fun f => f.cost_nrs == c, a.cost_nrs = c := by
      intro a ha
      have := (List.mem_filter.mp ha).2
      simpa using this
    have hpair : (df.filter fun f => f.cost_nrs == c).Pairwise
        (fun x y : CostedFlow =>
          (fun a b : CostedFlow => decide (b.cost_nrs ≤ a.cost_nrs)) x y = true) := by
      apply List.pairwise_of_forall_mem_list
      intro a ha b hb
      simp only [decide_eq_true_eq]
      rw [hall a ha, hall b hb]
    have hsub : (df.filter fun f => f.cost_nrs == c).Sublist
        (df.mergeSort fun a b : CostedFlow => decide (b.cost_nrs ≤ a.cost_nrs)) :=
      List.sublist_mergeSort htrans htotal hpair (List.filter_sublist df)
    have hperm2 : (((df.mergeSort fun a b : CostedFlow =>
        decide (b.cost_nrs ≤ a.cost_nrs)).filter fun f => f.cost_nrs == c)).Perm
        (df.filter fun f => f.cost_nrs == c) :=
      (List.mergeSort_perm df _).filter _
    have heq : ((df.mergeSort fun a b : CostedFlow =>
        decide (b.cost_nrs ≤ a.cost_nrs)).filter fun f => f.cost_nrs == c) =
        df.filter fun f => f.cost_nrs == c := by
      have h1 := hsub.filter (fun f => f.cost_nrs == c)
      rw [List.filter_eq_self.mpr (fun a ha => (List.mem_filter.mp ha).2)] at h1
      exact (h1.eq_of_length hperm2.length_eq.symm).symm
    have h2 := (List.take_sublist 10
      (df.mergeSort fun a b : CostedFlow =>
        decide (b.cost_nrs ≤ a.cost_nrs))).filter (fun f => f.cost_nrs == c)
    rw [heq] at h2
    exact h2
